/-
Verification of the geodata ingestion-and-diagnostics pipeline
(GeoFile: format dispatch, coordinate-field inference, field-type
classification, statistics summarisation, and the error-remediation
factory) against its natural-language specification.

The Python source is shallowly embedded: pandas/geopandas values become a
tagged `PyValue` type, numpy dtypes become `NpDtype`, exceptions become the
`PyExc` type, and every function is translated branch-for-branch from the
source file it models.  Python floats are represented by rationals (the
claims under verification never depend on floating-point rounding).
-/
import Mathlib

namespace GeoFile

/-! ## Values and dtypes

A cell of a pandas column.  `pyNaN` is the missing-value marker (NaN/None),
`pyRat` stands in for Python floats, `pyDate` for `datetime` instances. -/

inductive PyValue where
  | pyNaN
  | pyInt (n : Int)
  | pyRat (q : ℚ)
  | pyStr (s : String)
  | pyDate (y m d : Nat)
  deriving Repr, DecidableEq

/-- The numpy storage kinds distinguished by `classify_field_type`. -/
inductive NpDtype where
  | float32 | float64 | int16 | int32 | int64 | datetime64 | object
  deriving Repr, DecidableEq

def NpDtype.isFloating : NpDtype → Bool
  | .float32 => true | .float64 => true | _ => false

def NpDtype.isInteger : NpDtype → Bool
  | .int16 => true | .int32 => true | .int64 => true | _ => false

/-- `Series.dropna()`: remove the missing-value markers. -/
def dropna (l : List PyValue) : List PyValue := l.filter (fun v => v ≠ .pyNaN)

/-- `isinstance(v, datetime)` on a cell value. -/
def PyValue.isDateVal : PyValue → Bool
  | .pyDate _ _ _ => true | _ => false

/-! ## Exceptions (the failure kinds raised by the pipeline) -/

inductive PyExc where
  | fileNotFoundError (msg : String)
  | valueError (msg : String)
  | crsError (msg : String)
  | dataSourceError (msg : String)
  | parserError (msg : String)
  | emptyDataError (msg : String)
  | permissionError (msg : String)
  | typeError (msg : String)
  | attributeError (msg : String)
  | indexError (msg : String)
  | keyError (msg : String)
  deriving Repr, DecidableEq

/-- `str(e)` on an exception object. -/
def PyExc.strOf : PyExc → String
  | .fileNotFoundError m => m | .valueError m => m | .crsError m => m
  | .dataSourceError m => m | .parserError m => m | .emptyDataError m => m
  | .permissionError m => m | .typeError m => m | .attributeError m => m
  | .indexError m => m | .keyError m => m

/-- `type(e).__name__`. -/
def PyExc.typeName : PyExc → String
  | .fileNotFoundError _ => "FileNotFoundError" | .valueError _ => "ValueError"
  | .crsError _ => "CRSError" | .dataSourceError _ => "DataSourceError"
  | .parserError _ => "ParserError" | .emptyDataError _ => "EmptyDataError"
  | .permissionError _ => "PermissionError" | .typeError _ => "TypeError"
  | .attributeError _ => "AttributeError" | .indexError _ => "IndexError"
  | .keyError _ => "KeyError"

/-! ## `classify_field_type` (GeoFile/Tools/DataInputTools.py)

```
def classify_field_type(dtype, data):
    if np.issubdtype(dtype, np.floating):
        if dtype == np.float32: return "Float"
        return "Double"
    elif np.issubdtype(dtype, np.integer):
        min_val = data.min(); max_val = data.max()
        if -32768 <= min_val and max_val <= 32767: return "Short Integer"
        return "Long Integer"
    elif np.issubdtype(dtype, np.datetime64) or isinstance(data.iloc[0], datetime):
        return "Date"
    elif dtype == object:
        sample = data.dropna().iloc[0] if not data.empty else ""
        if isinstance(sample, str) and len(sample.encode('utf-8')) < 254:
            return "Text"
        return "BLOB"
    return "Unknown"
```
`data.iloc[0]` raises `IndexError` on an empty series, and
`data.dropna().iloc[0]` raises `IndexError` on an all-missing series;
both raises are modelled as `Except.error`.  On an empty integer series
`data.min()` is NaN and both NaN comparisons are False, so the branch
falls through to `"Long Integer"`. -/

def seriesIntMin (data : List PyValue) : Option Int :=
  (data.filterMap fun v => match v with | .pyInt n => some n | _ => none).foldl
    (fun acc n => match acc with | none => some n | some m => some (min m n)) none

def seriesIntMax (data : List PyValue) : Option Int :=
  (data.filterMap fun v => match v with | .pyInt n => some n | _ => none).foldl
    (fun acc n => match acc with | none => some n | some m => some (max m n)) none

def ilocErr : PyExc := .indexError "single positional indexer is out-of-bounds"

def classify_field_type (dtype : NpDtype) (data : List PyValue) : Except PyExc String :=
  if dtype.isFloating then
    if dtype = .float32 then .ok "Float" else .ok "Double"
  else if dtype.isInteger then
    match seriesIntMin data, seriesIntMax data with
    | some mn, some mx =>
        if -32768 ≤ mn ∧ mx ≤ 32767 then .ok "Short Integer" else .ok "Long Integer"
    | _, _ => .ok "Long Integer"
  else if dtype = .datetime64 then .ok "Date"
  else
    match data.head? with
    | none => .error ilocErr
    | some v =>
      if v.isDateVal then .ok "Date"
      else if dtype = .object then
        match (dropna data).head? with
        | none => .error ilocErr
        | some s =>
          match s with
          | .pyStr str => if str.utf8ByteSize < 254 then .ok "Text" else .ok "BLOB"
          | _ => .ok "BLOB"
      else .ok "Unknown"

/-! ## DataFrames and coordinate-column detection
(GeoFile/Processors/DataInputProcessor.py, TabularProcessor) -/

/-- A pandas column label: a string, or an integer (headerless reads). -/
inductive ColLabel where
  | str (s : String)
  | idx (n : Nat)
  deriving Repr, DecidableEq

/-- `f"{col}"` on a label. -/
def ColLabel.render : ColLabel → String
  | .str s => s | .idx n => toString n

structure DFColumn where
  label : ColLabel
  dtype : NpDtype
  values : List PyValue
  deriving Repr, DecidableEq

structure DataFrame where
  cols : List DFColumn
  deriving Repr, DecidableEq

def DataFrame.names (df : DataFrame) : List ColLabel := df.cols.map (·.label)

/-- `len(self.df)`: the row count (all columns of a pandas frame share it). -/
def DataFrame.nrows (df : DataFrame) : Nat :=
  (df.cols.head?.map (·.values.length)).getD 0

/-- `self.df[col]`: label lookup. -/
def resolveCol (df : DataFrame) (l : ColLabel) : Option DFColumn :=
  df.cols.find? (fun c => c.label = l)

/-- `self.df[col] = series`: replace the values of the column labelled `l`. -/
def DataFrame.setCol (df : DataFrame) (l : ColLabel) (vs : List PyValue) : DataFrame :=
  ⟨df.cols.map fun c => if c.label = l then { c with values := vs } else c⟩

/-- The longitude synonyms of `auto_detect_map['lon']` (note: no "lng"). -/
def lonCandidates : List String := ["经度", "longitude", "lon", "x", "X"]

/-- The latitude synonyms of `auto_detect_map['lat']`. -/
def latCandidates : List String := ["纬度", "latitude", "lat", "y", "Y"]

/-- `for candidate in auto_detect_map[target]: if candidate in self.df.columns: return candidate` -/
def nameMatch (cands : List String) (names : List ColLabel) : Option ColLabel :=
  cands.findSome? fun c => if (ColLabel.str c) ∈ names then some (.str c) else none

/-- `TabularProcessor.detect_col` (lines 197-223): explicit column if assigned,
else first synonym present among the column names, else positional index
0 (lon) / 1 (lat) in headerless mode, else `None`. -/
def detect_col (assigned : Option ColLabel) (cands : List String)
    (names : List ColLabel) (header_mode : Bool) (fallbackIdx : Nat) : Option ColLabel :=
  match assigned with
  | some c => some c
  | none =>
    match nameMatch cands names with
    | some c => some c
    | none => if !header_mode then some (.idx fallbackIdx) else none

/-- Python truthiness of a detected column reference (`0`, `""` and `None`
are falsy), needed for the `or` in
`self.lon_col = self.detect_col('lon') or (0 if not self.header_mode else None)`. -/
def colTruthy : Option ColLabel → Bool
  | none => false
  | some (.idx 0) => false
  | some (.str "") => false
  | some _ => true

def pyOrCol (a b : Option ColLabel) : Option ColLabel := if colTruthy a then a else b

/-- `self.df.columns.str.contains('^Unnamed')` on one label. -/
def labelIsUnnamed : ColLabel → Bool
  | .str s => s.startsWith "Unnamed"
  | .idx _ => false

/-! ## Statistical coordinate enhancement (lines 245-297) -/

/-- Numeric view of a cell (`between` treats NaN and non-numbers as False). -/
def valAsRat : PyValue → Option ℚ
  | .pyInt n => some (n : ℚ)
  | .pyRat q => some q
  | _ => none

def CHINA_LON_LO : ℚ := 7366 / 100
def CHINA_LON_HI : ℚ := 13505 / 100
def CHINA_LAT_LO : ℚ := 1815 / 100
def CHINA_LAT_HI : ℚ := 5355 / 100

def valBetween (lo hi : ℚ) (v : PyValue) : Bool :=
  match valAsRat v with
  | some q => decide (lo ≤ q ∧ q ≤ hi)
  | none => false

/-- `series.between(lo, hi).mean()`: fraction of the given cells inside the
closed range (the mean of an empty boolean series is NaN; every comparison
against it is False downstream, modelled as 0). -/
def fracBetween (vals : List PyValue) (lo hi : ℚ) : ℚ :=
  if vals.length = 0 then 0
  else (vals.countP (valBetween lo hi) : ℚ) / (vals.length : ℚ)

/-- `s.isdigit()`. -/
def isDigitStr (s : String) : Bool := !s.isEmpty && s.toList.all Char.isDigit

def strToNat (s : String) : Nat := s.toNat?.getD 0

/-- The adjacency test on a pair of numeric-column labels (lines 260-264). -/
def labAdjacent : ColLabel → ColLabel → Bool
  | .idx a, .idx b => b = a + 1
  | .str a, .str b => isDigitStr b && isDigitStr a && decide (strToNat b = strToNat a + 1)
  | _, _ => false

/-- `max(candidate_pairs, key=...)`: Python `max` keeps the first element
whose key is maximal. -/
def pythonMax (x : α) (rest : List α) (key : α → ℚ) : α :=
  rest.foldl (fun best a => if key a > key best then a else best) x

/-- The "智能识别增强" block (lines 245-293): scan adjacent numeric columns,
collect ordered (lon, lat) candidate pairs by the >0.95 membership-ratio
test on the dropna'd values, and pick the pair maximising the summed
membership ratios over the full columns.  `none` means no candidate pair
was found (the processor then returns the undetectable-coordinates error). -/
def enhance (df : DataFrame) : Option (ColLabel × ColLabel) :=
  let ncols := df.cols.filter (fun c => c.dtype.isFloating || c.dtype.isInteger)
  let candidate_pairs := (ncols.zip ncols.tail).foldl (fun acc p =>
    if !(labAdjacent p.1.label p.2.label) then acc
    else
      let d1 := dropna p.1.values
      let d2 := dropna p.2.values
      let c1lon := fracBetween d1 CHINA_LON_LO CHINA_LON_HI > 95 / 100
      let c2lat := fracBetween d2 CHINA_LAT_LO CHINA_LAT_HI > 95 / 100
      let c1lat := fracBetween d1 CHINA_LAT_LO CHINA_LAT_HI > 95 / 100
      let c2lon := fracBetween d2 CHINA_LON_LO CHINA_LON_HI > 95 / 100
      if c1lon && c2lat then acc ++ [(p.1, p.2)]
      else if c1lat && c2lon then acc ++ [(p.2, p.1)]
      else acc) []
  match candidate_pairs with
  | [] => none
  | p :: rest =>
      let best := pythonMax p rest fun q =>
        fracBetween q.1.values CHINA_LON_LO CHINA_LON_HI +
        fracBetween q.2.values CHINA_LAT_LO CHINA_LAT_HI
      some (best.1.label, best.2.label)

/-! ## Formatting helpers -/

/-- `"\n".join(lines)`. -/
def joinLines : List String → String
  | [] => ""
  | [s] => s
  | s :: t :: rest => s ++ "\n" ++ joinLines (t :: rest)

/-- `str(v)` on a cell value (model: floats printed as rationals stand-ins,
dates in ISO form; the claims only depend on string cells). -/
def PyValue.pyStrOf : PyValue → String
  | .pyNaN => "nan"
  | .pyInt n => toString n
  | .pyRat q => toString q
  | .pyStr s => s
  | .pyDate y m d => toString y ++ "-" ++ toString m ++ "-" ++ toString d

def padZeros (s : String) (w : Nat) : String :=
  String.mk (List.replicate (w - s.length) '0') ++ s

/-- `f"{q:.{d}f}"` on a rational, rounding half-up; stands in for Python
float formatting (no claim depends on the tie-breaking rule). -/
def qToFixed (q : ℚ) (d : Nat) : String :=
  let n : Int := round (|q| * ((10 : ℚ) ^ d))
  let n' : Nat := n.toNat
  let ip := n' / 10 ^ d
  let fp := n' % 10 ^ d
  (if q < 0 ∧ n' ≠ 0 then "-" else "") ++ toString ip ++
    (if d = 0 then "" else "." ++ padZeros (toString fp) d)

def fmtOptFixed (o : Option ℚ) (d : Nat) : String :=
  match o with | none => "nan" | some q => qToFixed q d

/-- `str(x)` for a numeric stat: integers print bare, other rationals via
the fixed-point stand-in. -/
def ratToStr (q : ℚ) : String :=
  if q.den = 1 then toString q.num else qToFixed q 6

def fmtOptRat (o : Option ℚ) : String :=
  match o with | none => "nan" | some q => ratToStr q

def chunk3 : List Char → List (List Char)
  | [] => []
  | a :: rest => ((a :: rest).take 3) :: chunk3 ((a :: rest).drop 3)
termination_by l => l.length
decreasing_by
  simp only [List.drop_succ_cons, List.length_cons, List.length_drop]
  omega

/-- `f"{n:,}"`: thousands separators. -/
def commaFmt (n : Nat) : String :=
  String.mk (List.intercalate [','] (chunk3 (toString n).toList.reverse)).reverse

def qmin (l : List ℚ) : Option ℚ :=
  l.foldl (fun acc q => match acc with | none => some q | some m => some (min m q)) none

def qmax (l : List ℚ) : Option ℚ :=
  l.foldl (fun acc q => match acc with | none => some q | some m => some (max m q)) none

/-- `series.mean()` (skips missing values; NaN on an empty column → `none`). -/
def qmean (l : List ℚ) : Option ℚ :=
  if l.length = 0 then none else some (l.sum / (l.length : ℚ))

/-! ## Per-field statistics and report lines -/

/-- `series.dropna().unique()` / `series.unique()`: order-preserving
first-occurrence deduplication. -/
def pdUnique : List PyValue → List PyValue
  | [] => []
  | v :: rest => v :: pdUnique (rest.filter (fun w => w ≠ v))
termination_by l => l.length
decreasing_by
  simp only [List.length_cons]
  exact Nat.lt_succ_of_le (List.length_filter_le _ _)

structure TextStats where
  unique_count : Nat
  sample_values : Option (List PyValue)
  deriving Repr, DecidableEq

/-- Tabular text-field stats (DataInputProcessor.py lines 354-360):
`unique_values.tolist()[:3] if len(unique_values) <= 3 else None`. -/
def tabular_text_stats (values : List PyValue) : TextStats :=
  let unique_values := pdUnique (dropna values)
  { unique_count := unique_values.length
    sample_values :=
      if unique_values.length ≤ 3 then some (unique_values.take 3) else none }

/-- Tabular text-field report line (lines 397-402). -/
def tabular_text_line (col : ColLabel) (st : TextStats) : String :=
  if st.unique_count ≤ 3 then
    "    - 文本字段 [" ++ col.render ++ "]：包含值 " ++
      String.intercalate ", " ((st.sample_values.getD []).map PyValue.pyStrOf)
  else
    "    - 文本字段 [" ++ col.render ++ "]：唯一值数量 " ++ toString st.unique_count

/-- Vector text-field stats (ShpProcessor.process lines 112-118):
threshold 5 instead of 3. -/
def shp_text_stats (values : List PyValue) : TextStats :=
  let unique_values := pdUnique (dropna values)
  { unique_count := unique_values.length
    sample_values :=
      if unique_values.length ≤ 5 then some (unique_values.take 5) else none }

/-- Vector text-field report line (lines 157-162). -/
def shp_text_line (col : ColLabel) (st : TextStats) : String :=
  if st.unique_count ≤ 5 then
    "    - 文本字段 [" ++ col.render ++ "]：包含值 " ++
      String.intercalate ", " ((st.sample_values.getD []).map PyValue.pyStrOf)
  else
    "    - 文本字段 [" ++ col.render ++ "]：唯一值数量 " ++ toString st.unique_count

/-! ## Error taxonomy and remediation factory
(GeoFile/Common/ErrorsHandler/DataInputErrors.py) -/

/-- `self.error_info`: cause, technical findings, remediation suggestions. -/
structure ErrorInfo where
  cause : String
  diag : List String
  sugg : List String
  deriving Repr, DecidableEq

/-- `BaseErrorHandler.format_response` rendering (lines 43-51):
`"\n".join(["■ 错误原因\n"+cause, "▼ 技术诊断\n"+"\n".join(diag), "⚙ 修复建议\n"+"\n".join(sugg)])`
written with the outer joins expanded (string concatenation is associative,
so the flattening is literal). -/
def renderInfo (i : ErrorInfo) : String :=
  "■ 错误原因\n" ++ i.cause ++ "\n▼ 技术诊断\n" ++ joinLines i.diag ++
    "\n⚙ 修复建议\n" ++ joinLines i.sugg

/-- Is `p` a contiguous sublist of `l`? -/
def listInfix (p : List Char) : List Char → Bool
  | [] => p.isEmpty
  | a :: rest => p.isPrefixOf (a :: rest) || listInfix p rest

/-- `"pat" in msg`. -/
def strContains (msg pat : String) : Bool := listInfix pat.toList msg.toList

/-- `BaseErrorHandler.build_error_info`. -/
def base_error_info (e : PyExc) : ErrorInfo :=
  { cause := "未知错误"
    diag := ["原始错误: " ++ e.strOf]
    sugg := [] }

/-- `FileNotFoundHandler.build_error_info`. -/
def file_not_found_info (file_path : String) (e : PyExc) : ErrorInfo :=
  { cause := "文件路径不存在"
    diag := ["请求路径: " ++ file_path, "系统报错: " ++ e.strOf, "可能原因:",
             "1. 文件路径包含特殊字符", "2. 文件已被移动或删除", "3. 使用了错误的相对路径"]
    sugg := ["1. 检查路径中的中文字符或空格", "2. 尝试使用绝对路径",
             "3. 验证文件是否存在于指定位置"] }

/-- `ValueErrorHandler.build_error_info`: reason-code sniffing by substring
tests on the lowercased message. -/
def value_error_info (e : PyExc) : ErrorInfo :=
  let error_msg := e.strOf.toLower
  let rs :=
    if strContains error_msg "1" then
      (["未检测到经纬度字段"], ["请明确指定列名/索引"])
    else if strContains error_msg "2" then
      (["该文件类型是暂不支持的文件类型"], ["尝试更换为shp/txt/excel数据重新上传"])
    else if strContains error_msg "3" then
      (["无法自动识别坐标字段"],
       ["请手动为文件添加或修改表头信息",
        "将经度列命名为\x27经度\x27, \x27longitude\x27, \x27lon\x27, \x27x\x27, \x27X\x27中的一个",
        "将纬度列命名为\x27纬度\x27, \x27latitude\x27, \x27lat\x27, \x27y\x27, \x27Y\x27中的一个"])
    else ([error_msg], ["请检查该值是否合规！"])
  { cause := "文件重要值错误", diag := rs.1, sugg := rs.2 }

/-- `DataSourceErrorHandler.build_error_info`. -/
def data_source_info (e : PyExc) : ErrorInfo :=
  let error_msg := e.strOf.toLower
  let extra : List String :=
    if strContains error_msg "no such file" then ["文件路径错误或包含特殊字符"]
    else if strContains error_msg "unrecognized data source" then ["文件扩展名与实际格式不匹配"]
    else if strContains error_msg "failed to open" then ["文件正在被其他程序占用", "文件权限不足"]
    else if strContains error_msg ".shx" then ["Shapefile组件不完整（缺少.shx文件）"]
    else ["未知数据源错误，需要进一步诊断"]
  { cause := "数据源读取失败"
    diag := [error_msg] ++ extra
    sugg := ["1. 检查文件完整性（必须包含.shp/.shx等）",
             "2. 验证文件编码：使用文本编辑器查看是否有乱码",
             "3. 尝试指定驱动参数：gpd.read_file(file_path, driver=\x27ESRI Shapefile\x27)",
             "4. 使用QGIS打开文件验证数据有效性"] }

/-- `CSVReadErrorHandler.build_error_info`. -/
def csv_read_info (e : PyExc) : ErrorInfo :=
  { cause := "CSV文件解析失败"
    diag := ["错误类型: " ++ e.typeName, "详细消息: " ++ e.strOf]
    sugg := ["1. 检查文件编码格式（尝试GBK/UTF-8）", "2. 验证CSV文件是否损坏",
             "3. 检查分隔符是否统一"] }

/-- `ExcelReadErrorHandler.build_error_info`. -/
def excel_read_info (e : PyExc) : ErrorInfo :=
  { cause := "Excel文件读取失败"
    diag := ["错误类型: " ++ e.typeName, "详细消息: " ++ e.strOf]
    sugg := ["1. 确认文件未被其他程序占用", "2. 验证Excel文件版本兼容性",
             "3. 尝试更改文件权限或更新Excel版本"] }

/-! ### Handler registry -/

/-- The exception classes named in the handlers' `ERROR_TYPE` declarations. -/
inductive ExcClass where
  | cFileNotFound | cCRS | cDataSource | cParser | cEmptyData | cPermission | cValue
  deriving Repr, DecidableEq

/-- `isinstance(e, cls)`, including the real subclass relations:
`pandas.errors.ParserError` and `pandas.errors.EmptyDataError` both derive
from `ValueError`. -/
def pyIsinstance : PyExc → ExcClass → Bool
  | .fileNotFoundError _, .cFileNotFound => true
  | .crsError _, .cCRS => true
  | .dataSourceError _, .cDataSource => true
  | .parserError _, .cParser => true
  | .parserError _, .cValue => true
  | .emptyDataError _, .cEmptyData => true
  | .emptyDataError _, .cValue => true
  | .permissionError _, .cPermission => true
  | .valueError _, .cValue => true
  | _, _ => false

inductive HandlerTag where
  | fileNotFoundH | crsH | dataSourceH | csvH | excelH | valueH | baseH
  deriving Repr, DecidableEq

/-- `GeoFileErrorFactory.HANDLERS` (lines 259-269): the dict comprehension
keyed by each handler's `ERROR_TYPE` (a class or a tuple of classes),
in registration order. -/
def HANDLERS : List (List ExcClass × HandlerTag) :=
  [([.cFileNotFound], .fileNotFoundH),
   ([.cCRS], .crsH),
   ([.cDataSource], .dataSourceH),
   ([.cParser, .cEmptyData], .csvH),
   ([.cParser, .cPermission], .excelH),
   ([.cValue], .valueH)]

/-- `isinstance(error_obj, err_class)` where `err_class` may be a tuple. -/
def matchesEntry (cs : List ExcClass) (e : PyExc) : Bool := cs.any (pyIsinstance e)

/-- `GeoFileErrorFactory.get_handler` (lines 271-277): first structural
match over the registry, `BaseErrorHandler` as fallback. -/
def get_handler (e : PyExc) : HandlerTag :=
  match HANDLERS.find? (fun p => matchesEntry p.1 e) with
  | some p => p.2
  | none => .baseH

/-! ### The CRS handler's automatic remediation (lines 108-185) -/

/-- A `geopandas.GeoDataFrame` as far as the CRS handler observes it. -/
structure Gdf where
  crs : Option String
  deriving Repr, DecidableEq

/-- `str(gdf.crs)` (an undefined reference system prints as `None`). -/
def Gdf.crsStr (g : Gdf) : String :=
  match g.crs with | none => "None" | some s => s

/-- The pre-repair report sent before the retry (CRSErrorHandler.build_error_info). -/
def crs_pre_info (e : PyExc) : ErrorInfo :=
  { cause := "坐标系定义异常"
    diag := ["原始错误: " ++ e.strOf, "可能原因:", "1. PRJ文件缺失或损坏",
             "2. 使用了非标准EPSG代码", "3. 数据导出时未正确设置投影"]
    sugg := ["正在尝试进行自动修复……"] }

/-- The terminal diagnosis built when the retry also fails (lines 153-178). -/
def crs_fail_info (origErr retryErr : String) : ErrorInfo :=
  { cause := "坐标系修复失败"
    diag := ["初次错误: " ++ origErr, "移除PRJ后错误: " ++ retryErr, "可能原因:",
             "1. 数据本身坐标值异常", "2. 几何数据损坏", "3. 需要手动指定坐标系"]
    sugg := ["终极方案：强制指定坐标系参数", "操作步骤：", "1. 用文本编辑器查看坐标值范围",
             "2. 根据数据来源推测正确坐标系", "3. 使用QGIS重新定义投影"] }

/-- Result of `CRSErrorHandler.format_response`.  `prjMoved` records whether
the sidecar `.prj` file was relocated to a temporary path; `outcome` is the
recovered dataset (`inl`) or the rendered terminal diagnosis (`inr`);
`sentSuccessMsg` is the notification sent after a successful retry. -/
structure CRSFixResult where
  prjMoved : Bool
  sentPreReport : String
  outcome : Gdf ⊕ String
  sentSuccessMsg : Option String
  deriving Repr, DecidableEq

/-- `CRSErrorHandler.format_response` (lines 127-185), over the observable
filesystem facts: whether the `.prj` sidecar exists, and what the retried
`gpd.read_file` (now without the sidecar) produces. -/
def crs_format_response (file_name : String) (e : PyExc) (prjExists : Bool)
    (reread : Except String Gdf) : CRSFixResult :=
  { prjMoved := prjExists
    sentPreReport := renderInfo (crs_pre_info e)
    outcome :=
      match reread with
      | .ok gdf => .inl gdf
      | .error readErr => .inr (renderInfo (crs_fail_info e.strOf readErr))
    sentSuccessMsg :=
      match reread with
      | .ok gdf => some ("成功读取文件 " ++ file_name ++
          "\n- 移除无效PRJ文件后坐标系: " ++ gdf.crsStr)
      | .error _ => none }

/-! ### `format_response` as seen by the dispatcher -/

/-- What a handler's `format_response` returns to the dispatcher: every
handler but the CRS one returns the rendered report string; the CRS one
may instead return the recovered dataset. -/
inductive HResp where
  | rendered (s : String)
  | dataset (g : Gdf)
  deriving Repr, DecidableEq

/-- The filesystem facts the CRS remediation depends on. -/
structure FsCtx where
  prjExists : Bool
  reread : Except String Gdf
  deriving Repr

def format_response (file_path : String) (fs : FsCtx) (e : PyExc) : HResp :=
  match get_handler e with
  | .fileNotFoundH => .rendered (renderInfo (file_not_found_info file_path e))
  | .crsH =>
      match (crs_format_response file_path e fs.prjExists fs.reread).outcome with
      | .inl g => .dataset g
      | .inr s => .rendered s
  | .dataSourceH => .rendered (renderInfo (data_source_info e))
  | .csvH => .rendered (renderInfo (csv_read_info e))
  | .excelH => .rendered (renderInfo (excel_read_info e))
  | .valueH => .rendered (renderInfo (value_error_info e))
  | .baseH => .rendered (renderInfo (base_error_info e))

/-! ## Result envelopes (GeoFile/Common/Message.py) -/

/-- A JSON-serialisable response value: a plain string, a
`{"status": "success", "data": v}` envelope, or a
`{"status": "error", "message": v, "code"?: c}` envelope. -/
inductive RVal where
  | str (s : String)
  | succEnv (data : RVal)
  | errEnv (message : RVal) (code : Option String)
  deriving Repr, DecidableEq

/-- `Message.success(data)`. -/
def success (data : RVal) : RVal := .succEnv data

/-- `Message.error(message)` (no `error_code` is ever passed in the
dispatcher, so `code` is absent). -/
def error (message : RVal) : RVal := .errEnv message none

def RVal.isEnvelope : RVal → Bool
  | .succEnv _ => true | .errEnv _ _ => true | .str _ => false

/-! ## TabularProcessor.core (lines 225-416), staged -/

/-- What a `core()` call does: raise, or return a value. -/
inductive CoreOutcome where
  | raised (e : PyExc)
  | returned (v : RVal)
  deriving Repr, DecidableEq

def coordFailMsg : String := "无法自动识别坐标字段，请手动指定lon_col和lat_col参数"

/-- Coordinate-field detection plus the statistical enhancement
(lines 238-297).  `inl` is an early `return await error(...)` from `core`;
`inr` carries the assigned column references. -/
def coordDetect (df : DataFrame) (lon0 lat0 : Option ColLabel) :
    Option ColLabel × Option ColLabel :=
  if lon0.isNone || lat0.isNone then
    let names := df.names
    let header_mode := !(names.all labelIsUnnamed)
    let lon1 := pyOrCol (detect_col lon0 lonCandidates names header_mode 0)
      (if !header_mode then some (.idx 0) else none)
    let lat1 := pyOrCol (detect_col lat0 latCandidates names header_mode 1)
      (if !header_mode then some (.idx 1) else none)
    (lon1, lat1)
  else (lon0, lat0)

def coordStage (df : DataFrame) (lon0 lat0 : Option ColLabel) :
    RVal ⊕ (Option ColLabel × Option ColLabel) :=
  let pair := coordDetect df lon0 lat0
  if pair.1.isNone || pair.2.isNone then
    match enhance df with
    | some (a, b) => .inr (some a, some b)
    | none => .inl (error (.str coordFailMsg))
  else .inr pair

/-- Strip one leading minus sign. -/
def stripNeg : List Char → List Char
  | '-' :: rest => rest
  | l => l

/-- Split at the first dot: integer part and (when a dot occurs) the rest. -/
def splitDot : List Char → List Char × Option (List Char)
  | [] => ([], none)
  | c :: rest =>
    if c = '.' then ([], some rest)
    else
      let r := splitDot rest
      (c :: r.1, r.2)

def digitsOnly (l : List Char) : Bool := !l.isEmpty && l.all Char.isDigit

/-- A decimal literal accepted by the `pd.to_numeric` model (an
approximation of pandas numeric parsing; the claims only rely on plain
numbers being accepted and words being rejected). -/
def strIsNumeric (s : String) : Bool :=
  match splitDot (stripNeg s.toList) with
  | (a, none) => digitsOnly a
  | (a, some b) => digitsOnly a && digitsOnly b

def charsToNat (l : List Char) : Nat :=
  l.foldl (fun a c => a * 10 + (c.toNat - 48)) 0

def strToRatVal (s : String) : PyValue :=
  let neg : Bool := match s.toList with | '-' :: _ => true | _ => false
  match splitDot (stripNeg s.toList) with
  | (a, none) =>
      let n : Int := (charsToNat a : Int)
      .pyInt (if neg then -n else n)
  | (a, some b) =>
      let q : ℚ := (charsToNat a : ℚ) + (charsToNat b : ℚ) / ((10 : ℚ) ^ b.length)
      .pyRat (if neg then -q else q)

def pdToNumericCell : PyValue → Option PyValue
  | .pyNaN => some .pyNaN
  | .pyInt n => some (.pyInt n)
  | .pyRat q => some (.pyRat q)
  | .pyStr s => if strIsNumeric s then some (strToRatVal s) else none
  | .pyDate _ _ _ => none

/-- `pd.to_numeric(series)`: coerce every cell or fail. -/
def pd_to_numeric (vals : List PyValue) : Option (List PyValue) :=
  vals.mapM pdToNumericCell

def numericFailMsg (colType : String) (l : ColLabel) : String :=
  colType ++ "字段 " ++ l.render ++ " 包含非数值数据"

/-- One iteration of the validation loop (lines 299-308): a `None` column
raises `ValueError("1")`; the bare `except:` around
`self.df[col] = pd.to_numeric(self.df[col])` turns any failure (including
the `KeyError` of an unknown label) into an early `return await error(...)`. -/
def validateOne (df : DataFrame) (c : Option ColLabel) (colType : String) :
    Except PyExc (RVal ⊕ DataFrame) :=
  match c with
  | none => .error (.valueError "1")
  | some l =>
    match resolveCol df l with
    | none => .ok (.inl (error (.str (numericFailMsg colType l))))
    | some col =>
      match pd_to_numeric col.values with
      | some vs => .ok (.inr (df.setCol l vs))
      | none => .ok (.inl (error (.str (numericFailMsg colType l))))

def validateStage (df : DataFrame) (lonc latc : Option ColLabel) :
    Except PyExc (RVal ⊕ DataFrame) :=
  match validateOne df lonc "经度" with
  | .error e => .error e
  | .ok (.inl rv) => .ok (.inl rv)
  | .ok (.inr df1) => validateOne df1 latc "纬度"

/-! ### Field analysis (lines 310-416) -/

inductive FieldStats where
  | numeric (ftype : String) (mn mx mean : Option ℚ)
  | date (mn mx : String)
  | text (st : TextStats)
  | empty
  deriving Repr, DecidableEq

structure SysField where
  name : ColLabel
  ftype : String
  count : Nat
  deriving Repr, DecidableEq

def colRats (c : DFColumn) : List ℚ := c.values.filterMap valAsRat

def dateKey3 (t : Nat × Nat × Nat) : Nat := t.1 * 10000 + t.2.1 * 100 + t.2.2

def seriesDates (vals : List PyValue) : List (Nat × Nat × Nat) :=
  vals.filterMap fun v => match v with | .pyDate y m d => some (y, m, d) | _ => none

def dateMin (l : List (Nat × Nat × Nat)) : Option (Nat × Nat × Nat) :=
  l.foldl (fun acc d => match acc with
    | none => some d
    | some m => some (if dateKey3 d < dateKey3 m then d else m)) none

def dateMax (l : List (Nat × Nat × Nat)) : Option (Nat × Nat × Nat) :=
  l.foldl (fun acc d => match acc with
    | none => some d
    | some m => some (if dateKey3 m < dateKey3 d then d else m)) none

/-- `.strftime("%Y-%m-%d")`. -/
def strftimeYMD (t : Nat × Nat × Nat) : String :=
  padZeros (toString t.1) 4 ++ "-" ++ padZeros (toString t.2.1) 2 ++ "-" ++
    padZeros (toString t.2.2) 2

/-- Build one field's stats entry (lines 330-370), with the raises the
source can produce: `classify_field_type` may raise `IndexError`;
`.strftime` on a `NaT` min/max raises; `col.lower()` on an integer label
raises `AttributeError`. -/
def buildFieldEntry (c : DFColumn) : Except PyExc ((ColLabel × FieldStats) ⊕ SysField) :=
  match classify_field_type c.dtype c.values with
  | .error e => .error e
  | .ok ft =>
    if ft ∈ ["Double", "Float", "Short Integer", "Long Integer"] then
      .ok (.inl (c.label,
        .numeric ft (qmin (colRats c)) (qmax (colRats c)) (qmean (colRats c))))
    else if ft = "Date" then
      match dateMin (seriesDates c.values), dateMax (seriesDates c.values) with
      | some a, some b => .ok (.inl (c.label, .date (strftimeYMD a) (strftimeYMD b)))
      | _, _ => .error (.valueError "NaTType does not support strftime")
    else if ft = "Text" then
      .ok (.inl (c.label, .text (tabular_text_stats c.values)))
    else
      match c.label with
      | .str s =>
        if s.toLower ∈ ["id", "fid", "oid"] then
          .ok (.inr ⟨c.label,
            if ft ∈ ["Short Integer", "Long Integer"] then "Long Integer" else ft,
            (pdUnique c.values).length⟩)
        else .ok (.inl (c.label, .empty))
      | .idx _ => .error (.attributeError "int object has no attribute lower")

/-- One field's report line (lines 387-402).  A column classified
`Unknown`/`BLOB` that is not a system field leaves `stats = {}` in the
fields dict, so `stats['type']` raises `KeyError` here. -/
def tabular_field_line : ColLabel × FieldStats → Except PyExc String
  | (l, .numeric ft mn mx mean) =>
      .ok ("    - 数值字段 [" ++ l.render ++ "]（" ++ ft ++ "）：平均 " ++
        fmtOptFixed mean 2 ++ " | 最大 " ++ fmtOptRat mx ++ " | 最小 " ++ fmtOptRat mn)
  | (l, .date mn mx) =>
      .ok ("    - 日期字段 [" ++ l.render ++ "]：范围 " ++ mn ++ " 至 " ++ mx)
  | (l, .text st) => .ok (tabular_text_line l st)
  | (_, .empty) => .error (.keyError "type")

def sys_field_line (f : SysField) : String :=
  "    - 系统字段 [" ++ f.name.render ++ "]：" ++ f.ftype ++ "类型，共" ++
    toString f.count ++ "条记录"

/-- `file_ext.strip('.')` (extensions carry only a leading dot). -/
def stripDotExt (ext : String) : String := ext.dropWhile (fun c => c = '.')

/-- The analysis-and-report stage (lines 310-416): bounding box over the
coordinate columns, per-field stats and lines, the fixed report layout,
joined and returned as the success payload string. -/
def analysisStage (file_name ext : String) (df : DataFrame)
    (lonc latc : Option ColLabel) : Except PyExc String := do
  let lonVals := ((lonc.bind (resolveCol df)).map colRats).getD []
  let latVals := ((latc.bind (resolveCol df)).map colRats).getD []
  let entries ← (df.cols.filter fun c =>
      !(decide (some c.label = lonc) || decide (some c.label = latc))).foldlM
    (fun (acc : List (ColLabel × FieldStats) × List SysField) c => do
      match ← buildFieldEntry c with
      | .inl f => pure (acc.1 ++ [f], acc.2)
      | .inr s => pure (acc.1, acc.2 ++ [s]))
    ([], [])
  let fieldLines ← entries.1.mapM tabular_field_line
  let header : List String :=
    ["- 地理数据处理完成：" ++ file_name,
     "  - 数据概况：",
     "    - 文件类型：" ++ (stripDotExt ext).toUpper,
     "    - 总点数：" ++ commaFmt df.nrows,
     "  - 坐标范围：",
     "    - 经度：" ++ fmtOptFixed (qmin lonVals) 4 ++ " ~ " ++ fmtOptFixed (qmax lonVals) 4,
     "    - 纬度：" ++ fmtOptFixed (qmin latVals) 4 ++ " ~ " ++ fmtOptFixed (qmax latVals) 4,
     "  - 属性字段："]
  pure (joinLines (header ++ fieldLines ++ entries.2.map sys_field_line))

/-- `TabularProcessor.core`, composed.  The file-read result is a
parameter (`pd.read_csv`/`pd.read_excel` may raise); a completed run
returns `success(result_msg)` — itself an envelope. -/
def tabular_core (file_name ext : String) (fileExists : Bool)
    (readResult : Except PyExc DataFrame) (lon0 lat0 : Option ColLabel) : CoreOutcome :=
  if !fileExists then .raised (.fileNotFoundError "") else
  match readResult with
  | .error e => .raised e
  | .ok df0 =>
    match coordStage df0 lon0 lat0 with
    | .inl rv => .returned rv
    | .inr (lonc, latc) =>
      match validateStage df0 lonc latc with
      | .error e => .raised e
      | .ok (.inl rv) => .returned rv
      | .ok (.inr df2) =>
        match analysisStage file_name ext df2 lonc latc with
        | .error e => .raised e
        | .ok msg => .returned (success (.str msg))

/-! ## FileProcessorFactory.create_processor (lines 427-451) -/

def SHP_EXTENSIONS : List String := [".shp"]
def TABULAR_EXTENSIONS : List String := [".csv", ".txt", ".xlsx", ".xls"]

/-- The keys of `FileProcessorFactory.PROCESSORS`. -/
def PROCESSOR_EXTENSIONS : List String := SHP_EXTENSIONS ++ TABULAR_EXTENSIONS

/-- The exception raised by `process_result = await processor.process()`:
the call passes no dataset argument, but `ShpProcessor.process(self, gdf)`
requires one, and `TabularProcessor` has no `process` method at all. -/
def processCallError (ext : String) : PyExc :=
  if ext ∈ SHP_EXTENSIONS then
    .typeError "process() missing 1 required positional argument: gdf"
  else .attributeError "TabularProcessor object has no attribute process"

/-- `FileProcessorFactory.create_processor`: extension dispatch, the inner
`try` around `core()`, remediation of raised failures through the factory,
the argument-less re-entry call on a recovered dataset, and the outer
`except` that renders any remaining exception.  The `.dataset` fallbacks
in the string positions are unreachable (the ValueError and base handlers
always render strings). -/
def create_processor (file_path ext : String) (fs : FsCtx) (run : CoreOutcome) : RVal :=
  if ext ∉ PROCESSOR_EXTENSIONS then
    match format_response file_path fs (.valueError "2") with
    | .rendered s => error (.str s)
    | .dataset _ => error (.str "")
  else
    match run with
    | .returned process_result => success process_result
    | .raised e =>
      match format_response file_path fs e with
      | .rendered s => error (.str s)
      | .dataset _ =>
        match format_response file_path fs (processCallError ext) with
        | .rendered s => error (.str s)
        | .dataset _ => error (.str "")

/-- A public call on a tabular file: the factory driving `TabularProcessor.core`. -/
def dispatch_tabular (file_name ext : String) (fileExists : Bool)
    (readResult : Except PyExc DataFrame) (lon0 lat0 : Option ColLabel)
    (fs : FsCtx) : RVal :=
  create_processor file_name ext fs
    (tabular_core file_name ext fileExists readResult lon0 lat0)

/-! ## Concrete inputs used by the counterexamples and witnesses -/

/-- A tabular frame with a single text column: no coordinate column can be
detected, so `core` takes the undetectable-coordinates early return. -/
def textOnlyDF : DataFrame :=
  ⟨[⟨.str "name", .object, [.pyStr "A", .pyStr "B"]⟩]⟩

/-- A tabular frame whose (explicitly selected) longitude column holds a
word, so coordinate validation fails the numeric coercion. -/
def badLonDF : DataFrame :=
  ⟨[⟨.str "lon", .object, [.pyStr "abc"]⟩,
    ⟨.str "lat", .float64, [.pyRat (312 / 10)]⟩]⟩

end GeoFile

namespace GeoFile

/-! ## Helper lemmas -/

theorem strAppend_assoc (a b c : String) : (a ++ b) ++ c = a ++ (b ++ c) := by
  rcases a with ⟨la⟩; rcases b with ⟨lb⟩; rcases c with ⟨lc⟩
  show String.mk ((la ++ lb) ++ lc) = String.mk (la ++ (lb ++ lc))
  rw [List.append_assoc]

/-- Every rendered report has the three-section shape. -/
theorem renderInfo_shape (i : ErrorInfo) :
    ∃ a b c, renderInfo i =
      "■ 错误原因\n" ++ a ++ "\n▼ 技术诊断\n" ++ b ++ "\n⚙ 修复建议\n" ++ c :=
  ⟨i.cause, joinLines i.diag, joinLines i.sugg, rfl⟩

/-- `format_response` either renders a report or (CRS retry success only)
returns the recovered dataset. -/
theorem format_response_cases (fp : String) (fs : FsCtx) (e : PyExc) :
    (∃ i, format_response fp fs e = .rendered (renderInfo i)) ∨
    (∃ g, format_response fp fs e = .dataset g) := by
  cases e with
  | crsError m =>
      rcases hr : fs.reread with t | g
      · exact .inl ⟨crs_fail_info (PyExc.strOf (.crsError m)) t, by
          simp [format_response, get_handler, HANDLERS, matchesEntry, pyIsinstance,
            crs_format_response, hr]⟩
      · exact .inr ⟨g, by
          simp [format_response, get_handler, HANDLERS, matchesEntry, pyIsinstance,
            crs_format_response, hr]⟩
  | fileNotFoundError m => exact .inl ⟨file_not_found_info fp (.fileNotFoundError m), rfl⟩
  | valueError m => exact .inl ⟨value_error_info (.valueError m), rfl⟩
  | dataSourceError m => exact .inl ⟨data_source_info (.dataSourceError m), rfl⟩
  | parserError m => exact .inl ⟨csv_read_info (.parserError m), rfl⟩
  | emptyDataError m => exact .inl ⟨csv_read_info (.emptyDataError m), rfl⟩
  | permissionError m => exact .inl ⟨excel_read_info (.permissionError m), rfl⟩
  | typeError m => exact .inl ⟨base_error_info (.typeError m), rfl⟩
  | attributeError m => exact .inl ⟨base_error_info (.attributeError m), rfl⟩
  | indexError m => exact .inl ⟨base_error_info (.indexError m), rfl⟩
  | keyError m => exact .inl ⟨base_error_info (.keyError m), rfl⟩

/-- Generic first-match characterisation of `List.find?`. -/
theorem find?_of_first {α : Type} (f : α → Bool) :
    ∀ (l : List α) (i : Nat) (p : α), l.get? i = some p → f p = true →
      ((l.take i).all fun q => !f q) = true → l.find? f = some p := by
  intro l
  induction l with
  | nil => intro i p h; simp at h
  | cons x xs ih =>
    intro i p hget hf hall
    cases i with
    | zero =>
        simp only [List.get?] at hget
        cases hget
        simp [List.find?, hf]
    | succ j =>
        simp only [List.get?] at hget
        simp only [List.take, List.all_cons, Bool.and_eq_true] at hall
        have hx : f x = false := by
          rcases hall with ⟨hx, _⟩
          cases hfx : f x
          · rfl
          · rw [hfx] at hx; simp at hx
        simp [List.find?, hx]
        exact ih j p hget hf hall.2

/-- Soundness of the synonym scan: a hit names a synonym present among the
columns. -/
theorem nameMatch_sound :
    ∀ (cands : List String) (names : List ColLabel) (l : ColLabel),
      nameMatch cands names = some l →
      ∃ c, c ∈ cands ∧ l = .str c ∧ ColLabel.str c ∈ names := by
  intro cands
  induction cands with
  | nil => intro names l h; simp [nameMatch] at h
  | cons c cs ih =>
    intro names l h
    simp only [nameMatch, List.findSome?] at h
    by_cases hc : ColLabel.str c ∈ names
    · rw [if_pos hc] at h
      cases h
      exact ⟨c, by simp, rfl, hc⟩
    · rw [if_neg hc] at h
      rcases ih names l h with ⟨d, hd1, hd2, hd3⟩
      exact ⟨d, by simp [hd1], hd2, hd3⟩

/-- Completeness of the synonym scan: if some synonym is present, the scan
returns one. -/
theorem nameMatch_complete :
    ∀ (cands : List String) (names : List ColLabel),
      (∃ c, c ∈ cands ∧ ColLabel.str c ∈ names) →
      ∃ d, d ∈ cands ∧ ColLabel.str d ∈ names ∧
        nameMatch cands names = some (.str d) := by
  intro cands
  induction cands with
  | nil => intro names h; rcases h with ⟨c, hc, _⟩; simp at hc
  | cons c cs ih =>
    intro names h
    by_cases hc : ColLabel.str c ∈ names
    · exact ⟨c, by simp, hc, by simp [nameMatch, List.findSome?, hc]⟩
    · rcases h with ⟨d, hd1, hd2⟩
      have hdc : d ∈ cs := by
        rcases List.mem_cons.mp hd1 with h1 | h1
        · subst h1; exact absurd hd2 hc
        · exact h1
      rcases ih names ⟨d, hdc, hd2⟩ with ⟨x, hx1, hx2, hx3⟩
      exact ⟨x, by simp [hx1], hx2, by simp [nameMatch, List.findSome?, hc]; exact hx3⟩

/-- The only early return of the coordinate stage is the
undetectable-coordinates error envelope. -/
theorem coordStage_inl {df : DataFrame} {a b : Option ColLabel} {rv : RVal}
    (h : coordStage df a b = .inl rv) : rv = error (.str coordFailMsg) := by
  unfold coordStage at h
  dsimp only at h
  split at h
  · split at h
    · exact Sum.noConfusion h
    · exact (Sum.inl.inj h).symm
  · exact Sum.noConfusion h

/-- The only early return of the validation loop is the non-numeric-column
error envelope. -/
theorem validateOne_inl {df : DataFrame} {c : Option ColLabel} {t : String} {rv : RVal}
    (h : validateOne df c t = .ok (.inl rv)) : ∃ s, rv = error (.str s) := by
  unfold validateOne at h
  split at h
  · exact Except.noConfusion h
  · split at h
    · exact ⟨_, (Sum.inl.inj (Except.ok.inj h)).symm⟩
    · split at h
      · exact Sum.noConfusion (Except.ok.inj h)
      · exact ⟨_, (Sum.inl.inj (Except.ok.inj h)).symm⟩

theorem validateStage_inl {df : DataFrame} {a b : Option ColLabel} {rv : RVal}
    (h : validateStage df a b = .ok (.inl rv)) : ∃ s, rv = error (.str s) := by
  unfold validateStage at h
  split at h
  · exact Except.noConfusion h
  · rename_i heq
    rcases validateOne_inl heq with ⟨s, hs⟩
    exact ⟨s, by rw [← (Sum.inl.inj (Except.ok.inj h)), hs]⟩
  · exact validateOne_inl h

/-- Every value returned (rather than raised) by `TabularProcessor.core` is
itself an envelope. -/
theorem tabular_core_returned {fn ext : String} {fe : Bool}
    {rr : Except PyExc DataFrame} {l0 l1 : Option ColLabel} {v : RVal}
    (h : tabular_core fn ext fe rr l0 l1 = .returned v) : v.isEnvelope = true := by
  unfold tabular_core at h
  split at h
  · exact CoreOutcome.noConfusion h
  · split at h
    · exact CoreOutcome.noConfusion h
    · split at h
      · rename_i heq
        rw [← CoreOutcome.returned.inj h, coordStage_inl heq]
        rfl
      · split at h
        · exact CoreOutcome.noConfusion h
        · rename_i heq
          rcases validateStage_inl heq with ⟨s, hs⟩
          rw [← CoreOutcome.returned.inj h, hs]
          rfl
        · split at h
          · exact CoreOutcome.noConfusion h
          · rw [← CoreOutcome.returned.inj h]; rfl

/-! ## Claims -/

/-- C1, counterexample: the claim says the dispatcher's result envelope is
never nested, but on this concrete public call (a `.csv` file holding only
a text column) the dispatcher returns a success envelope whose payload is
itself an error envelope. -/
theorem C1_counterexample :
    dispatch_tabular "points.csv" ".csv" true (.ok textOnlyDF) none none
        ⟨false, .error "e"⟩ =
      .succEnv (.errEnv (.str coordFailMsg) none) ∧
    RVal.isEnvelope (.errEnv (.str coordFailMsg) none) = true :=
  ⟨rfl, rfl⟩

/-- C1, amended: every public tabular dispatch returns either an error
envelope whose message is a plain string, or a success envelope whose
payload is itself an envelope (the one returned by `core`) — success
envelopes are nested exactly once. -/
theorem C1_amended (file_name ext : String) (fileExists : Bool)
    (readResult : Except PyExc DataFrame) (lon0 lat0 : Option ColLabel) (fs : FsCtx) :
    (∃ s, dispatch_tabular file_name ext fileExists readResult lon0 lat0 fs =
        .errEnv (.str s) none) ∨
    (∃ v, dispatch_tabular file_name ext fileExists readResult lon0 lat0 fs =
        .succEnv v ∧ v.isEnvelope = true) := by
  unfold dispatch_tabular create_processor
  split
  · rcases format_response_cases file_name fs (.valueError "2") with ⟨i, hi⟩ | ⟨g, hg⟩
    · rw [hi]; exact .inl ⟨renderInfo i, rfl⟩
    · rw [hg]; exact .inl ⟨"", rfl⟩
  · rcases hcore : tabular_core file_name ext fileExists readResult lon0 lat0 with e | v
    · dsimp only
      rcases format_response_cases file_name fs e with ⟨i, hi⟩ | ⟨g, hg⟩
      · rw [hi]; exact .inl ⟨renderInfo i, rfl⟩
      · rw [hg]
        rcases format_response_cases file_name fs (processCallError ext) with
          ⟨i, hi2⟩ | ⟨g2, hg2⟩
        · rw [hi2]; exact .inl ⟨renderInfo i, rfl⟩
        · rw [hg2]; exact .inl ⟨"", rfl⟩
    · exact .inr ⟨v, rfl, tabular_core_returned hcore⟩

/-- C2, counterexample: the undetectable-coordinates and
non-numeric-coordinate failures do not surface as rendered Diagnostic
Reports — `core` returns ad-hoc error envelopes with bare message strings
(not three-section reports), and the dispatcher wraps them in a success
envelope. -/
theorem C2_counterexample :
    dispatch_tabular "d.csv" ".csv" true (.ok textOnlyDF) none none ⟨false, .error "e"⟩ =
      .succEnv (.errEnv (.str coordFailMsg) none) ∧
    dispatch_tabular "d.csv" ".csv" true (.ok badLonDF)
        (some (.str "lon")) (some (.str "lat")) ⟨false, .error "e"⟩ =
      .succEnv (.errEnv (.str (numericFailMsg "经度" (.str "lon"))) none) ∧
    coordFailMsg.startsWith "■ 错误原因" = false ∧
    (numericFailMsg "经度" (.str "lon")).startsWith "■ 错误原因" = false := by
  refine ⟨?_, ?_, ?_, ?_⟩ <;> rfl

/-- C2, amended: every failure RAISED inside a processor is routed through
the remediation factory and surfaces as an error envelope whose message is
a rendered three-section Diagnostic Report. -/
theorem C2_amended (file_path ext : String) (fs : FsCtx) (e : PyExc) :
    ∃ a b c, create_processor file_path ext fs (.raised e) =
      .errEnv (.str ("■ 错误原因\n" ++ a ++ "\n▼ 技术诊断\n" ++ b ++
        "\n⚙ 修复建议\n" ++ c)) none := by
  unfold create_processor
  split
  · exact ⟨(value_error_info (.valueError "2")).cause,
      joinLines (value_error_info (.valueError "2")).diag,
      joinLines (value_error_info (.valueError "2")).sugg, rfl⟩
  · dsimp only
    rcases format_response_cases file_path fs e with ⟨i, hi⟩ | ⟨g, hg⟩
    · rw [hi]; exact ⟨i.cause, joinLines i.diag, joinLines i.sugg, rfl⟩
    · rw [hg]
      rcases format_response_cases file_path fs (processCallError ext) with
        ⟨i, hi2⟩ | ⟨g2, hg2⟩
      · rw [hi2]; exact ⟨i.cause, joinLines i.diag, joinLines i.sugg, rfl⟩
      · exfalso
        unfold processCallError at hg2
        split at hg2 <;> exact HResp.noConfusion hg2

/-- C3: when remediation yields a recovered dataset, the dispatcher calls
`processor.process()` with no argument; that call raises, the outer
`except` routes the new exception to the base handler, and the recovered
dataset is discarded — the pipeline never re-enters classification with
it.  The result is the base handler's unknown-error report. -/
theorem C3_code_bug (file_path ext : String) (fs : FsCtx) (e : PyExc) (g : Gdf)
    (hext : ext ∈ PROCESSOR_EXTENSIONS)
    (hrec : format_response file_path fs e = .dataset g) :
    create_processor file_path ext fs (.raised e) =
      .errEnv (.str (renderInfo (base_error_info (processCallError ext)))) none := by
  unfold create_processor
  rw [if_neg (not_not_intro hext)]
  dsimp only
  rw [hrec]
  unfold processCallError
  by_cases hs : ext ∈ SHP_EXTENSIONS
  · rw [if_pos hs]; rfl
  · rw [if_neg hs]; rfl

/-- C3, witness: a CRS failure on a `.shp` file whose `.prj`-less retry
succeeds — the handler hands back a recovered dataset, and the dispatcher
nevertheless returns the unknown-error report. -/
theorem C3_code_bug_witness :
    (".shp" ∈ PROCESSOR_EXTENSIONS) ∧
    format_response "f.shp" ⟨true, .ok ⟨none⟩⟩ (.crsError "bad prj") = .dataset ⟨none⟩ ∧
    create_processor "f.shp" ".shp" ⟨true, .ok ⟨none⟩⟩ (.raised (.crsError "bad prj")) =
      .errEnv (.str (renderInfo (base_error_info (processCallError ".shp")))) none :=
  ⟨by decide, rfl,
    C3_code_bug "f.shp" ".shp" ⟨true, .ok ⟨none⟩⟩ (.crsError "bad prj") ⟨none⟩
      (by decide) rfl⟩

/-- C4, counterexample: a column named `lng` is NOT selected as the
longitude column — `lng` is absent from the code's synonym list. -/
theorem C4_counterexample :
    detect_col none lonCandidates [ColLabel.str "lng", ColLabel.str "city"] true 0 = none ∧
    ("lng" ∈ lonCandidates → False) :=
  ⟨rfl, by decide⟩

/-- C4, amended: under header mode with no explicit assignment, name
matching selects as longitude exactly (a first match among) the synonyms
{经度, longitude, lon, x, X} — without `lng` — and as latitude exactly the
synonyms {纬度, latitude, lat, y, Y}, case-sensitively. -/
theorem C4_amended (names : List ColLabel) :
    (∀ c : String, detect_col none lonCandidates names true 0 = some (.str c) →
        c ∈ lonCandidates ∧ ColLabel.str c ∈ names) ∧
    ((∃ c, c ∈ lonCandidates ∧ ColLabel.str c ∈ names) →
        ∃ d, d ∈ lonCandidates ∧ ColLabel.str d ∈ names ∧
          detect_col none lonCandidates names true 0 = some (.str d)) ∧
    (∀ c : String, detect_col none latCandidates names true 1 = some (.str c) →
        c ∈ latCandidates ∧ ColLabel.str c ∈ names) ∧
    ((∃ c, c ∈ latCandidates ∧ ColLabel.str c ∈ names) →
        ∃ d, d ∈ latCandidates ∧ ColLabel.str d ∈ names ∧
          detect_col none latCandidates names true 1 = some (.str d)) := by
  have hdet : ∀ (cands : List String) (k : Nat),
      detect_col none cands names true k = nameMatch cands names := by
    intro cands k
    unfold detect_col
    cases h : nameMatch cands names <;> simp [h]
  refine ⟨?_, ?_, ?_, ?_⟩
  · intro c h
    rw [hdet] at h
    rcases nameMatch_sound _ _ _ h with ⟨d, hd1, hd2, hd3⟩
    cases ColLabel.str.inj hd2
    exact ⟨hd1, hd3⟩
  · intro h
    rcases nameMatch_complete _ _ h with ⟨d, h1, h2, h3⟩
    exact ⟨d, h1, h2, by rw [hdet]; exact h3⟩
  · intro c h
    rw [hdet] at h
    rcases nameMatch_sound _ _ _ h with ⟨d, hd1, hd2, hd3⟩
    cases ColLabel.str.inj hd2
    exact ⟨hd1, hd3⟩
  · intro h
    rcases nameMatch_complete _ _ h with ⟨d, h1, h2, h3⟩
    exact ⟨d, h1, h2, by rw [hdet]; exact h3⟩

/-- C4, witness: a column named `x` is selected as longitude. -/
theorem C4_amended_witness :
    ∃ d, d ∈ lonCandidates ∧ ColLabel.str d ∈ [ColLabel.str "x"] ∧
      detect_col none lonCandidates [ColLabel.str "x"] true 0 = some (.str d) :=
  (C4_amended [ColLabel.str "x"]).2.1 ⟨"x", by decide, by decide⟩

/-- C5, counterexample: an object-kind column whose every non-missing value
is a calendar date (first cell missing, second a datetime) is classified
`BLOB`, not `Date` — the classifier never checks that every non-missing
value parses as a date, and the date rule is not first. -/
theorem C5_counterexample :
    ((dropna [PyValue.pyNaN, PyValue.pyDate 2024 1 1]).all PyValue.isDateVal) = true ∧
    classify_field_type .object [PyValue.pyNaN, PyValue.pyDate 2024 1 1] = .ok "BLOB" ∧
    (classify_field_type .object [PyValue.pyNaN, PyValue.pyDate 2024 1 1] = .ok "Date" →
      False) := by
  refine ⟨rfl, rfl, ?_⟩
  intro h
  exact absurd (Except.ok.inj h) (by decide)

/-- C5, amended: the rules apply in order with first match winning, but the
floating-point and integral storage rules come before the date rule; for
other storage kinds the date rule fires exactly when the storage kind is
datetime64 or the first raw cell is a datetime instance — the values are
not otherwise examined for date-ness. -/
theorem C5_amended (dtype : NpDtype) (data : List PyValue) :
    (dtype.isFloating = true →
      classify_field_type dtype data =
        .ok (if dtype = .float32 then "Float" else "Double")) ∧
    (∀ v, dtype.isFloating = false → dtype.isInteger = false → data.head? = some v →
      (classify_field_type dtype data = .ok "Date" ↔
        (dtype = .datetime64 ∨ v.isDateVal = true))) := by
  constructor
  · intro h
    unfold classify_field_type
    rw [if_pos h]
    by_cases hf : dtype = .float32 <;> simp [hf]
  · intro v hf hi hhead
    unfold classify_field_type
    rw [if_neg (by simp [hf]), if_neg (by simp [hi])]
    by_cases hd : dtype = .datetime64
    · rw [if_pos hd]
      simp [hd]
    · rw [if_neg hd, hhead]
      dsimp only
      by_cases hv : v.isDateVal = true
      · rw [if_pos hv]
        simp [hv]
      · rw [if_neg hv]
        constructor
        · intro hcl
          exfalso
          by_cases ho : dtype = .object
          · rw [if_pos ho] at hcl
            rcases hdn : (dropna data).head? with _ | s
            · rw [hdn] at hcl; exact Except.noConfusion hcl
            · rw [hdn] at hcl
              rcases s with _ | n | q | str | ⟨y, m, d⟩
              · exact absurd (Except.ok.inj hcl) (by decide)
              · exact absurd (Except.ok.inj hcl) (by decide)
              · exact absurd (Except.ok.inj hcl) (by decide)
              · dsimp only at hcl
                by_cases hlen : str.utf8ByteSize < 254
                · rw [if_pos hlen] at hcl
                  exact absurd (Except.ok.inj hcl) (by decide)
                · rw [if_neg hlen] at hcl
                  exact absurd (Except.ok.inj hcl) (by decide)
              · exact absurd (Except.ok.inj hcl) (by decide)
          · rw [if_neg ho] at hcl
            exact absurd (Except.ok.inj hcl) (by decide)
        · intro hor
          rcases hor with h1 | h1
          · exact absurd h1 hd
          · exact absurd h1 hv

/-- C5, witness: an object column whose first cell is a datetime is
classified `Date`. -/
theorem C5_amended_witness :
    NpDtype.object.isFloating = false ∧ NpDtype.object.isInteger = false ∧
    [PyValue.pyDate 2024 1 1].head? = some (PyValue.pyDate 2024 1 1) ∧
    classify_field_type .object [PyValue.pyDate 2024 1 1] = .ok "Date" :=
  ⟨rfl, rfl, rfl,
    ((C5_amended .object [PyValue.pyDate 2024 1 1]).2 (PyValue.pyDate 2024 1 1)
      rfl rfl rfl).mpr (Or.inr rfl)⟩

/-- C6: the claim is right and the code is wrong — on an empty column of
object storage (and likewise an all-missing one) `classify_field_type`
raises `IndexError` at `data.iloc[0]` / `data.dropna().iloc[0]` instead of
returning `Unknown`; the guard `if not data.empty else ""` on the sample
line shows empty columns were meant to be tolerated, but the datetime
check dereferences `data.iloc[0]` first. -/
theorem C6_code_bug :
    classify_field_type .object [] = .error ilocErr ∧
    classify_field_type .object [PyValue.pyNaN] = .error ilocErr :=
  ⟨rfl, rfl⟩

/-- C7, counterexample: `ParserError` is claimed by three registry entries
(the CSV tuple, the Excel tuple, and — being a `ValueError` subclass — the
ValueError entry); first structural match hands it to the CSV handler.
The claim that no exception class is claimed by more than one handler is
false. -/
theorem C7_counterexample :
    HANDLERS.countP (fun p => matchesEntry p.1 (.parserError "boom")) = 3 ∧
    get_handler (.parserError "boom") = .csvH :=
  ⟨rfl, rfl⟩

/-- C7, amended: dispatch picks the first registry entry structurally
matching the failure (base handler when none matches), but kinds may be
claimed by several handlers: a `ParserError` matches both the CSV and the
Excel tuples and is resolved to the CSV handler by first match. -/
theorem C7_amended :
    (∀ (e : PyExc) (i : Nat) (p : List ExcClass × HandlerTag),
      HANDLERS.get? i = some p → matchesEntry p.1 e = true →
      ((HANDLERS.take i).all fun q => !matchesEntry q.1 e) = true →
      get_handler e = p.2) ∧
    (∀ e : PyExc, (HANDLERS.all fun q => !matchesEntry q.1 e) = true →
      get_handler e = .baseH) ∧
    (∀ m : String,
      matchesEntry [ExcClass.cParser, ExcClass.cEmptyData] (.parserError m) = true ∧
      matchesEntry [ExcClass.cParser, ExcClass.cPermission] (.parserError m) = true ∧
      get_handler (.parserError m) = .csvH) := by
  refine ⟨?_, ?_, ?_⟩
  · intro e i p hget hmatch htake
    unfold get_handler
    rw [find?_of_first _ HANDLERS i p hget hmatch htake]
  · intro e hall
    unfold get_handler
    have hnone : HANDLERS.find? (fun p => matchesEntry p.1 e) = none := by
      rw [List.find?_eq_none]
      intro x hx
      have hx2 := (List.all_eq_true.mp hall) x hx
      simp only [Bool.not_eq_true'] at hx2
      simp [hx2]
    rw [hnone]
  · intro m
    exact ⟨rfl, rfl, rfl⟩

/-- C7, witness: an `EmptyDataError` at registry index 3 (the CSV entry),
with no earlier entry matching, dispatches to the CSV handler. -/
theorem C7_amended_witness :
    HANDLERS.get? 3 = some ([ExcClass.cParser, ExcClass.cEmptyData], HandlerTag.csvH) ∧
    matchesEntry [ExcClass.cParser, ExcClass.cEmptyData] (.emptyDataError "x") = true ∧
    ((HANDLERS.take 3).all fun q => !matchesEntry q.1 (.emptyDataError "x")) = true ∧
    get_handler (.emptyDataError "x") = .csvH :=
  ⟨rfl, rfl, rfl,
    C7_amended.1 (.emptyDataError "x") 3
      ([ExcClass.cParser, ExcClass.cEmptyData], HandlerTag.csvH) rfl rfl rfl⟩

/-- C8: for integral storage, classification is `Short Integer` exactly
when the column minimum is ≥ -32768 and the maximum is ≤ 32767, and
`Long Integer` as soon as either bound is exceeded. -/
theorem C8_short_integer_range (dtype : NpDtype) (data : List PyValue) (mn mx : Int)
    (hint : dtype.isInteger = true)
    (hmn : seriesIntMin data = some mn) (hmx : seriesIntMax data = some mx) :
    (classify_field_type dtype data = .ok "Short Integer" ↔
      (-32768 ≤ mn ∧ mx ≤ 32767)) ∧
    classify_field_type dtype data =
      .ok (if -32768 ≤ mn ∧ mx ≤ 32767 then "Short Integer" else "Long Integer") := by
  have hfl : dtype.isFloating = false := by
    cases dtype <;> simp_all [NpDtype.isInteger, NpDtype.isFloating]
  unfold classify_field_type
  rw [if_neg (by simp [hfl]), if_pos hint, hmn, hmx]
  dsimp only
  constructor
  · by_cases h : (-32768 ≤ mn ∧ mx ≤ 32767)
    · rw [if_pos h]
      exact ⟨fun _ => h, fun _ => rfl⟩
    · rw [if_neg h]
      constructor
      · intro hcl
        exact absurd (Except.ok.inj hcl) (by decide)
      · intro hc
        exact absurd hc h
  · by_cases h : (-32768 ≤ mn ∧ mx ≤ 32767)
    · rw [if_pos h, if_pos h]
    · rw [if_neg h, if_neg h]

/-- C8, witness: minimum and maximum 40000 exceed the upper bound, so the
column classifies `Long Integer`. -/
theorem C8_witness :
    NpDtype.int64.isInteger = true ∧
    seriesIntMin [PyValue.pyInt 40000] = some 40000 ∧
    seriesIntMax [PyValue.pyInt 40000] = some 40000 ∧
    classify_field_type .int64 [PyValue.pyInt 40000] = .ok "Long Integer" := by
  refine ⟨rfl, rfl, rfl, ?_⟩
  have h := (C8_short_integer_range .int64 [PyValue.pyInt 40000] 40000 40000 rfl rfl rfl).2
  rw [if_neg (by decide)] at h
  exact h

/-- C9: a Text column's report line lists the full literal unique-value
list exactly when the unique count is within the threshold (3 for tabular,
5 for vector); above it, the line carries only the unique count. -/
theorem C9_text_report (col : ColLabel) (values : List PyValue) :
    ((tabular_text_stats values).unique_count ≤ 3 →
      tabular_text_line col (tabular_text_stats values) =
        "    - 文本字段 [" ++ col.render ++ "]：包含值 " ++
          String.intercalate ", " ((pdUnique (dropna values)).map PyValue.pyStrOf)) ∧
    (3 < (tabular_text_stats values).unique_count →
      tabular_text_line col (tabular_text_stats values) =
        "    - 文本字段 [" ++ col.render ++ "]：唯一值数量 " ++
          toString (pdUnique (dropna values)).length) ∧
    ((shp_text_stats values).unique_count ≤ 5 →
      shp_text_line col (shp_text_stats values) =
        "    - 文本字段 [" ++ col.render ++ "]：包含值 " ++
          String.intercalate ", " ((pdUnique (dropna values)).map PyValue.pyStrOf)) ∧
    (5 < (shp_text_stats values).unique_count →
      shp_text_line col (shp_text_stats values) =
        "    - 文本字段 [" ++ col.render ++ "]：唯一值数量 " ++
          toString (pdUnique (dropna values)).length) := by
  refine ⟨?_, ?_, ?_, ?_⟩
  · intro h
    have hlen : (pdUnique (dropna values)).length ≤ 3 := h
    unfold tabular_text_line tabular_text_stats
    dsimp only
    rw [if_pos hlen, if_pos hlen, Option.getD_some, List.take_of_length_le hlen]
  · intro h
    have hlen : ¬ (pdUnique (dropna values)).length ≤ 3 := by
      simpa using Nat.not_le_of_lt h
    unfold tabular_text_line tabular_text_stats
    dsimp only
    rw [if_neg hlen]
  · intro h
    have hlen : (pdUnique (dropna values)).length ≤ 5 := h
    unfold shp_text_line shp_text_stats
    dsimp only
    rw [if_pos hlen, if_pos hlen, Option.getD_some, List.take_of_length_le hlen]
  · intro h
    have hlen : ¬ (pdUnique (dropna values)).length ≤ 5 := by
      simpa using Nat.not_le_of_lt h
    unfold shp_text_line shp_text_stats
    dsimp only
    rw [if_neg hlen]

/-- C9, witness: two unique values are within the tabular threshold and the
line lists them literally. -/
theorem C9_witness :
    (tabular_text_stats [PyValue.pyStr "A", PyValue.pyStr "B"]).unique_count ≤ 3 ∧
    tabular_text_line (ColLabel.str "name")
        (tabular_text_stats [PyValue.pyStr "A", PyValue.pyStr "B"]) =
      "    - 文本字段 [" ++ (ColLabel.str "name").render ++ "]：包含值 " ++
        String.intercalate ", "
          ((pdUnique (dropna [PyValue.pyStr "A", PyValue.pyStr "B"])).map
            PyValue.pyStrOf) :=
  ⟨by simp [tabular_text_stats, pdUnique, dropna],
    (C9_text_report (ColLabel.str "name") [PyValue.pyStr "A", PyValue.pyStr "B"]).1
      (by simp [tabular_text_stats, pdUnique, dropna])⟩

/-- C10: the CRS remediation moves the `.prj` sidecar aside exactly when it
exists and re-reads; a successful re-read hands back the recovered dataset
and reports the resulting (possibly undefined) reference system; a failed
re-read yields a terminal diagnostic containing both the original error
text and the retry error text. -/
theorem C10_crs_remediation (file_name : String) (e : PyExc) (prjExists : Bool)
    (reread : Except String Gdf) :
    (crs_format_response file_name e prjExists reread).prjMoved = prjExists ∧
    (∀ g, reread = .ok g →
      (crs_format_response file_name e prjExists reread).outcome = .inl g ∧
      (crs_format_response file_name e prjExists reread).sentSuccessMsg =
        some ("成功读取文件 " ++ file_name ++ "\n- 移除无效PRJ文件后坐标系: " ++ g.crsStr)) ∧
    (∀ t, reread = .error t → ∃ a b c,
      (crs_format_response file_name e prjExists reread).outcome =
        .inr (a ++ e.strOf ++ b ++ t ++ c)) := by
  refine ⟨rfl, ?_, ?_⟩
  · intro g hg; subst hg; exact ⟨rfl, rfl⟩
  · intro t ht; subst ht
    refine ⟨"■ 错误原因\n" ++ "坐标系修复失败" ++ "\n▼ 技术诊断\n" ++ "初次错误: ",
      "\n" ++ "移除PRJ后错误: ",
      "\n" ++ joinLines ["可能原因:", "1. 数据本身坐标值异常", "2. 几何数据损坏",
        "3. 需要手动指定坐标系"] ++ "\n⚙ 修复建议\n" ++
        joinLines ["终极方案：强制指定坐标系参数", "操作步骤：",
          "1. 用文本编辑器查看坐标值范围", "2. 根据数据来源推测正确坐标系",
          "3. 使用QGIS重新定义投影"], ?_⟩
    simp only [crs_format_response, crs_fail_info, renderInfo, joinLines, strAppend_assoc]

/-- C10, witness: sidecar present, retry fails — the terminal diagnostic
holds both error texts. -/
theorem C10_witness :
    (crs_format_response "f.shp" (.crsError "orig") true (.error "retry")).prjMoved = true ∧
    (∃ a b c,
      (crs_format_response "f.shp" (.crsError "orig") true (.error "retry")).outcome =
        .inr (a ++ (PyExc.crsError "orig").strOf ++ b ++ "retry" ++ c)) :=
  ⟨(C10_crs_remediation "f.shp" (.crsError "orig") true (.error "retry")).1,
    (C10_crs_remediation "f.shp" (.crsError "orig") true (.error "retry")).2.2 "retry" rfl⟩

end GeoFile

